import Mathlib

/-! LDAC A2DP driver: shallow embedding of `src/driver/LDACDriver.c`.

The driver is a KMDF skeleton.  Every routine that touches the device
extension is embedded as a pure function that receives the extension and
returns the new one (together with the `NTSTATUS` it returns in C).  Calls
into the driver framework (`Wdf*`) are not part of the repository; what they
return is supplied by the caller of the embedded function as an explicit
outcome record, and the calls a routine makes on a request are recorded in a
trace.
-/

namespace LDACDriver

/-! ## Platform types and constants (Windows DDK, `ntstatus.h`) -/

/-- The type `NTSTATUS`, a signed 32-bit integer (`LONG`). -/
abbrev NTSTATUS := Int

/-- The value `0x00000000`. -/
def STATUS_SUCCESS : NTSTATUS := 0

/-- The value `0xC000000D`, read as a signed 32-bit integer. -/
def STATUS_INVALID_PARAMETER : NTSTATUS := 0xC000000D - 2 ^ 32

/-- The value `0xC0000010`, read as a signed 32-bit integer. -/
def STATUS_INVALID_DEVICE_REQUEST : NTSTATUS := 0xC0000010 - 2 ^ 32

/-- The value `0xC00000BB`, read as a signed 32-bit integer. -/
def STATUS_NOT_SUPPORTED : NTSTATUS := 0xC00000BB - 2 ^ 32

/-- The value `0xC0000206`, read as a signed 32-bit integer. -/
def STATUS_INVALID_BUFFER_SIZE : NTSTATUS := 0xC0000206 - 2 ^ 32

/-- The DDK test `#define NT_SUCCESS(Status) (((NTSTATUS)(Status)) >= 0)`. -/
def NT_SUCCESS (Status : NTSTATUS) : Bool := decide (0 ≤ Status)

/-- The size of a `ULONG` in bytes. -/
def sizeof_ULONG : Nat := 4

/-! ## Constants of the driver

`LDACDriver.c` uses `LDAC_BITRATE_990`, `LDAC_BITRATE_660` and
`LDAC_BITRATE_330`; the header under `src/` declares the same three values
under the names `LDAC_MAX_BITRATE`, `LDAC_MID_BITRATE`, `LDAC_MIN_BITRATE`.
-/

/-- Modelled from the spec: the macro `LDAC_BITRATE_990` is not declared in the
sources; the spec's BitrateTier gives High = 990000 (the header's
`LDAC_MAX_BITRATE`). -/
def LDAC_BITRATE_990 : Nat := 990000

/-- Modelled from the spec: the macro `LDAC_BITRATE_660` is not declared in the
sources; the spec's BitrateTier gives Mid = 660000 (the header's
`LDAC_MID_BITRATE`). -/
def LDAC_BITRATE_660 : Nat := 660000

/-- Modelled from the spec: the macro `LDAC_BITRATE_330` is not declared in the
sources; the spec's BitrateTier gives Low = 330000 (the header's
`LDAC_MIN_BITRATE`). -/
def LDAC_BITRATE_330 : Nat := 330000

/-- Constants that `LDACDriver.c` uses and no source file declares; they are
parameters of the embedding.  C rejects a `switch` with two equal `case`
labels, which is the field `labels_distinct`. -/
structure DriverConstants where
  IOCTL_LDAC_SET_BITRATE : Nat
  IOCTL_LDAC_GET_STATUS : Nat
  /-- The value of `sizeof(LDAC_CODEC_CONFIG)`. -/
  sizeof_LDAC_CODEC_CONFIG : Nat
  CodecTypeLDAC : Nat
  labels_distinct : IOCTL_LDAC_SET_BITRATE ≠ IOCTL_LDAC_GET_STATUS

/-! ## Data model -/

/-- The device context `LDAC_DEVICE_EXTENSION`.  Its declaration is not in the
sources; the fields are the ones `LDACDriver.c` reads or writes.  Framework
handles are natural numbers, `ULONG` is a natural number, `BOOLEAN` is
`Bool`. -/
structure LDAC_DEVICE_EXTENSION where
  Device : Nat
  CurrentBitrate : Nat
  IsLDACEnabled : Bool
  IsExclusiveMode : Bool
  DefaultQueue : Nat
  ManualQueue : Nat
  QueueLock : Nat
  CodecTimer : Nat
deriving DecidableEq, Repr

/-- The record `LDAC_CODEC_CONFIG` as `EvtIoDeviceControl` fills it: the four
fields of the header and the field `Type` the routine also assigns (written
`Type_`, `Type` being a reserved word). -/
structure LDAC_CODEC_CONFIG where
  Type_ : Nat
  Bitrate : Nat
  SamplingFreq : Nat
  ChannelMode : Nat
  BitDepth : Nat
deriving DecidableEq, Repr

/-! ## Codec routines -/

/-- Routine `LDACIsDeviceSupported`: the parameter is unreferenced, the result is
`TRUE`. -/
def LDACIsDeviceSupported (_Device : Nat) : Bool := true

/-- Routine `LDACNegotiateCodec`: both capability parameters are unreferenced.  The
`PVOID` argument is a value of an arbitrary type. -/
def LDACNegotiateCodec {α : Type} (DeviceExtension : LDAC_DEVICE_EXTENSION)
    (_CodecCapabilities : α) (_CapabilitiesLength : Nat) :
    NTSTATUS × LDAC_DEVICE_EXTENSION :=
  if DeviceExtension.IsLDACEnabled then
    (STATUS_SUCCESS, { DeviceExtension with CurrentBitrate := LDAC_BITRATE_990 })
  else
    (STATUS_NOT_SUPPORTED, DeviceExtension)

/-- Routine `LDACConfigureBitrate`. -/
def LDACConfigureBitrate (DeviceExtension : LDAC_DEVICE_EXTENSION) (TargetBitrate : Nat) :
    NTSTATUS × LDAC_DEVICE_EXTENSION :=
  if TargetBitrate ≠ LDAC_BITRATE_990 ∧
     TargetBitrate ≠ LDAC_BITRATE_660 ∧
     TargetBitrate ≠ LDAC_BITRATE_330 then
    (STATUS_INVALID_PARAMETER, DeviceExtension)
  else
    (STATUS_SUCCESS, { DeviceExtension with CurrentBitrate := TargetBitrate })

/-- What the two registry calls of `LDACReadConfiguration` return:
the status of `WdfDriverOpenParametersRegistryKey`, the status of
`WdfRegistryQueryULong` for `"PreferredBitrate"`, and the `ULONG` the query
stores when it succeeds. -/
structure RegistryOutcome where
  OpenStatus : NTSTATUS
  QueryStatus : NTSTATUS
  Value : Nat
deriving DecidableEq, Repr

/-- Routine `LDACReadConfiguration`.  The key is closed on both paths that
opened it; closing has no effect on the extension. -/
def LDACReadConfiguration (reg : RegistryOutcome) (DeviceExtension : LDAC_DEVICE_EXTENSION) :
    NTSTATUS × LDAC_DEVICE_EXTENSION :=
  let status := reg.OpenStatus
  if !NT_SUCCESS status then
    (status, DeviceExtension)
  else
    let status := reg.QueryStatus
    if NT_SUCCESS status then
      (STATUS_SUCCESS, { DeviceExtension with CurrentBitrate := reg.Value })
    else
      (STATUS_SUCCESS, DeviceExtension)

/-! ## Device life cycle -/

/-- What the framework calls of `EvtDeviceAdd` return, in the order of the
calls: for each object the creation status and the handle stored on success;
`Context` is the content of the freshly allocated device context; `Registry`
is what the registry calls of `LDACReadConfiguration` return. -/
structure DeviceAddOutcome where
  DeviceCreateStatus : NTSTATUS
  Device : Nat
  Context : LDAC_DEVICE_EXTENSION
  DefaultQueueStatus : NTSTATUS
  DefaultQueue : Nat
  ManualQueueStatus : NTSTATUS
  ManualQueue : Nat
  SpinLockStatus : NTSTATUS
  QueueLock : Nat
  TimerStatus : NTSTATUS
  CodecTimer : Nat
  Registry : RegistryOutcome
deriving DecidableEq, Repr

/-- Callback `EvtDeviceAdd`.  The result is the returned status and the device
extension, `none` when no device was created.  The initialisation macros and
`WdfDeviceInitSetDeviceType` do not touch the extension and are left out;
each `WdfIoQueueCreate`, `WdfSpinLockCreate` and `WdfTimerCreate` stores its
handle into the extension when it succeeds.  `LDACLogEvent` has an empty
body, so the failure of `LDACReadConfiguration` leaves no mark. -/
def EvtDeviceAdd (fw : DeviceAddOutcome) : NTSTATUS × Option LDAC_DEVICE_EXTENSION :=
  let status := fw.DeviceCreateStatus
  if !NT_SUCCESS status then
    (status, none)
  else
    let deviceExtension : LDAC_DEVICE_EXTENSION :=
      { fw.Context with
        Device := fw.Device
        CurrentBitrate := LDAC_BITRATE_990
        IsLDACEnabled := false
        IsExclusiveMode := false }
    let status := fw.DefaultQueueStatus
    if !NT_SUCCESS status then
      (status, some deviceExtension)
    else
      let deviceExtension := { deviceExtension with DefaultQueue := fw.DefaultQueue }
      let status := fw.ManualQueueStatus
      if !NT_SUCCESS status then
        (status, some deviceExtension)
      else
        let deviceExtension := { deviceExtension with ManualQueue := fw.ManualQueue }
        let status := fw.SpinLockStatus
        if !NT_SUCCESS status then
          (status, some deviceExtension)
        else
          let deviceExtension := { deviceExtension with QueueLock := fw.QueueLock }
          let status := fw.TimerStatus
          if !NT_SUCCESS status then
            (status, some deviceExtension)
          else
            let deviceExtension := { deviceExtension with CodecTimer := fw.CodecTimer }
            let (_status, deviceExtension) := LDACReadConfiguration fw.Registry deviceExtension
            (STATUS_SUCCESS, some deviceExtension)

/-- Callback `EvtPrepareHardware`; the resource lists are unreferenced. -/
def EvtPrepareHardware (deviceExtension : LDAC_DEVICE_EXTENSION)
    (_ResourcesRaw _ResourcesTranslated : Nat) : NTSTATUS × LDAC_DEVICE_EXTENSION :=
  (STATUS_SUCCESS,
    { deviceExtension with IsLDACEnabled := LDACIsDeviceSupported deviceExtension.Device })

/-- Callback `EvtReleaseHardware`; both parameters are unreferenced. -/
def EvtReleaseHardware (deviceExtension : LDAC_DEVICE_EXTENSION)
    (_ResourcesTranslated : Nat) : NTSTATUS × LDAC_DEVICE_EXTENSION :=
  (STATUS_SUCCESS, deviceExtension)

/-! ## I/O requests -/

/-- What the framework returns for one request: the status of
`WdfRequestRetrieveInputBuffer`, the `ULONG` at the start of the input buffer
it hands out, and the status of `WdfRequestRetrieveOutputBuffer`. -/
structure WDFREQUEST where
  RetrieveInputStatus : NTSTATUS
  InputULong : Nat
  RetrieveOutputStatus : NTSTATUS
deriving DecidableEq, Repr

/-- The things `EvtIoDeviceControl` does with a request, in program order. -/
inductive RequestAction where
  /-- Call of `WdfRequestRetrieveInputBuffer` with the minimum length. -/
  | RetrieveInputBuffer (MinimumLength : Nat)
  /-- The read `*bitrate` from the input buffer. -/
  | ReadInputBuffer
  /-- Call of `WdfRequestRetrieveOutputBuffer` with the minimum length. -/
  | RetrieveOutputBuffer (MinimumLength : Nat)
  /-- The five stores through `config` into the output buffer. -/
  | WriteOutputBuffer (config : LDAC_CODEC_CONFIG)
  /-- Call of `WdfRequestSetInformation`. -/
  | SetInformation (Information : Nat)
  /-- Call of `WdfRequestComplete`. -/
  | Complete (Status : NTSTATUS)
deriving DecidableEq, Repr

/-- The outcome of `EvtIoDeviceControl`: the device extension afterwards and
the actions performed on the request. -/
structure IoControlResult where
  DeviceExtension : LDAC_DEVICE_EXTENSION
  Actions : List RequestAction
deriving DecidableEq, Repr

/-- Callback `EvtIoDeviceControl`.  The `switch` is a chain of comparisons
with the two `case` labels. -/
def EvtIoDeviceControl (K : DriverConstants) (deviceExtension : LDAC_DEVICE_EXTENSION)
    (Request : WDFREQUEST) (OutputBufferLength InputBufferLength IoControlCode : Nat) :
    IoControlResult :=
  if IoControlCode = K.IOCTL_LDAC_SET_BITRATE then
    if InputBufferLength ≥ sizeof_ULONG then
      let status := Request.RetrieveInputStatus
      if NT_SUCCESS status then
        let bitrate := Request.InputULong
        let (status, deviceExtension) := LDACConfigureBitrate deviceExtension bitrate
        { DeviceExtension := deviceExtension
          Actions := [.RetrieveInputBuffer sizeof_ULONG, .ReadInputBuffer, .Complete status] }
      else
        { DeviceExtension := deviceExtension
          Actions := [.RetrieveInputBuffer sizeof_ULONG, .Complete status] }
    else
      { DeviceExtension := deviceExtension
        Actions := [.Complete STATUS_INVALID_BUFFER_SIZE] }
  else if IoControlCode = K.IOCTL_LDAC_GET_STATUS then
    if OutputBufferLength ≥ K.sizeof_LDAC_CODEC_CONFIG then
      let status := Request.RetrieveOutputStatus
      if NT_SUCCESS status then
        let config : LDAC_CODEC_CONFIG :=
          { Type_ := K.CodecTypeLDAC
            Bitrate := deviceExtension.CurrentBitrate
            SamplingFreq := 48000
            ChannelMode := 2
            BitDepth := 16 }
        { DeviceExtension := deviceExtension
          Actions := [.RetrieveOutputBuffer K.sizeof_LDAC_CODEC_CONFIG,
                      .WriteOutputBuffer config,
                      .SetInformation K.sizeof_LDAC_CODEC_CONFIG,
                      .Complete status] }
      else
        { DeviceExtension := deviceExtension
          Actions := [.RetrieveOutputBuffer K.sizeof_LDAC_CODEC_CONFIG, .Complete status] }
    else
      { DeviceExtension := deviceExtension
        Actions := [.Complete STATUS_INVALID_BUFFER_SIZE] }
  else
    { DeviceExtension := deviceExtension
      Actions := [.Complete STATUS_INVALID_DEVICE_REQUEST] }

/-- The statuses passed to `WdfRequestComplete`, in order. -/
def completions : List RequestAction → List NTSTATUS
  | [] => []
  | .Complete s :: rest => s :: completions rest
  | _ :: rest => completions rest

/-- The records stored into the output buffer, in order. -/
def outputWrites : List RequestAction → List LDAC_CODEC_CONFIG
  | [] => []
  | .WriteOutputBuffer c :: rest => c :: outputWrites rest
  | _ :: rest => outputWrites rest

/-- The values passed to `WdfRequestSetInformation`, in order. -/
def informationSet : List RequestAction → List Nat
  | [] => []
  | .SetInformation n :: rest => n :: informationSet rest
  | _ :: rest => informationSet rest

/-- Whether an action retrieves, reads or writes a buffer of the request. -/
def RequestAction.touchesBuffer : RequestAction → Bool
  | .RetrieveInputBuffer _ => true
  | .ReadInputBuffer => true
  | .RetrieveOutputBuffer _ => true
  | .WriteOutputBuffer _ => true
  | .SetInformation _ => false
  | .Complete _ => false

/-- Callback `EvtIoRead`: every parameter is unreferenced and the body is
empty. -/
def EvtIoRead (deviceExtension : LDAC_DEVICE_EXTENSION) (_Length : Nat) :
    LDAC_DEVICE_EXTENSION :=
  deviceExtension

/-- Callback `EvtIoWrite`: every parameter is unreferenced and the body is
empty. -/
def EvtIoWrite (deviceExtension : LDAC_DEVICE_EXTENSION) (_Length : Nat) :
    LDAC_DEVICE_EXTENSION :=
  deviceExtension

/-! ## Sequences of operations -/

/-- One call into the driver after the device exists, with its arguments. -/
inductive DriverOp where
  | PrepareHardware (ResourcesRaw ResourcesTranslated : Nat)
  | ReleaseHardware (ResourcesTranslated : Nat)
  | IoDeviceControl (Request : WDFREQUEST)
      (OutputBufferLength InputBufferLength IoControlCode : Nat)
  | IoRead (Length : Nat)
  | IoWrite (Length : Nat)
  | NegotiateCodec (CodecCapabilities : List Nat) (CapabilitiesLength : Nat)
  | ConfigureBitrate (TargetBitrate : Nat)
deriving DecidableEq, Repr

/-- Whether the operation is a call of `EvtPrepareHardware`. -/
def DriverOp.isPrepareHardware : DriverOp → Bool
  | .PrepareHardware _ _ => true
  | _ => false

/-- The device extension after one operation. -/
def stepOp (K : DriverConstants) (ext : LDAC_DEVICE_EXTENSION) : DriverOp → LDAC_DEVICE_EXTENSION
  | .PrepareHardware raw translated => (EvtPrepareHardware ext raw translated).2
  | .ReleaseHardware translated => (EvtReleaseHardware ext translated).2
  | .IoDeviceControl req outLen inLen code =>
      (EvtIoDeviceControl K ext req outLen inLen code).DeviceExtension
  | .IoRead len => EvtIoRead ext len
  | .IoWrite len => EvtIoWrite ext len
  | .NegotiateCodec caps len => (LDACNegotiateCodec ext caps len).2
  | .ConfigureBitrate target => (LDACConfigureBitrate ext target).2

/-- The device extension after a sequence of operations, first to last. -/
def runOps (K : DriverConstants) (ext : LDAC_DEVICE_EXTENSION) (ops : List DriverOp) :
    LDAC_DEVICE_EXTENSION :=
  ops.foldl (stepOp K) ext

/-- The three bitrate tiers. -/
def IsBitrateTier (b : Nat) : Prop :=
  b = LDAC_BITRATE_330 ∨ b = LDAC_BITRATE_660 ∨ b = LDAC_BITRATE_990

instance (b : Nat) : Decidable (IsBitrateTier b) := by
  unfold IsBitrateTier; infer_instance

/-! ## Capability sets of the specification -/

/-- Modelled from the spec: the channel modes a CapabilitySet may hold (mono,
stereo, dual).  No source file declares them. -/
inductive ChannelMode where
  | mono
  | stereo
  | dual
deriving DecidableEq, Repr

/-- Modelled from the spec: CapabilitySet, the supported sampling frequencies,
channel modes, bit depths and bitrate tiers of an endpoint.  No source file
declares it; it is what a capability blob advertises. -/
structure CapabilitySet where
  samplingFreqs : List Nat
  channelModes : List ChannelMode
  bitDepths : List Nat
  bitrateTiers : List Nat
deriving DecidableEq, Repr

/-- Modelled from the spec: the remote side of the negotiation scenario,
{44100} x {stereo, mono} x {16} x {Mid, Low}. -/
def scenarioRemote : CapabilitySet where
  samplingFreqs := [44100]
  channelModes := [.stereo, .mono]
  bitDepths := [16]
  bitrateTiers := [660000, 330000]

/-! ## Concrete data for the worked instances -/

/-- One admissible choice of the undeclared constants. -/
def sampleConstants : DriverConstants where
  IOCTL_LDAC_SET_BITRATE := 0x00412000
  IOCTL_LDAC_GET_STATUS := 0x00412004
  sizeof_LDAC_CODEC_CONFIG := 16
  CodecTypeLDAC := 1
  labels_distinct := by decide

/-- A device extension with LDAC enabled and the middle tier selected. -/
def sampleExtension : LDAC_DEVICE_EXTENSION where
  Device := 1
  CurrentBitrate := 660000
  IsLDACEnabled := true
  IsExclusiveMode := false
  DefaultQueue := 2
  ManualQueue := 3
  QueueLock := 4
  CodecTimer := 5

/-- A request whose two buffers are both handed out with `STATUS_SUCCESS`;
its input buffer holds `330000`. -/
def sampleRequest : WDFREQUEST where
  RetrieveInputStatus := STATUS_SUCCESS
  InputULong := 330000
  RetrieveOutputStatus := STATUS_SUCCESS

/-- A zeroed device context, as the framework allocates it. -/
def zeroContext : LDAC_DEVICE_EXTENSION where
  Device := 0
  CurrentBitrate := 0
  IsLDACEnabled := false
  IsExclusiveMode := false
  DefaultQueue := 0
  ManualQueue := 0
  QueueLock := 0
  CodecTimer := 0

/-- A device creation in which every framework call succeeds and the
parameters key has no `"PreferredBitrate"` value (`STATUS_OBJECT_NAME_NOT_FOUND`,
`0xC0000034`). -/
def plainDeviceAdd : DeviceAddOutcome where
  DeviceCreateStatus := STATUS_SUCCESS
  Device := 1
  Context := zeroContext
  DefaultQueueStatus := STATUS_SUCCESS
  DefaultQueue := 2
  ManualQueueStatus := STATUS_SUCCESS
  ManualQueue := 3
  SpinLockStatus := STATUS_SUCCESS
  QueueLock := 4
  TimerStatus := STATUS_SUCCESS
  CodecTimer := 5
  Registry := { OpenStatus := STATUS_SUCCESS, QueryStatus := 0xC0000034 - 2 ^ 32, Value := 0 }

/-- A device creation in which every framework call succeeds and the
registry holds `PreferredBitrate = 12345`. -/
def oddRegistryDeviceAdd : DeviceAddOutcome :=
  { plainDeviceAdd with
    Registry := { OpenStatus := STATUS_SUCCESS, QueryStatus := STATUS_SUCCESS, Value := 12345 } }

/-! ## Basic facts -/

theorem NT_SUCCESS_STATUS_SUCCESS : NT_SUCCESS STATUS_SUCCESS = true := by decide

theorem STATUS_INVALID_PARAMETER_ne_SUCCESS : STATUS_INVALID_PARAMETER ≠ STATUS_SUCCESS := by
  decide

theorem isBitrateTier_iff (b : Nat) :
    IsBitrateTier b ↔ (b = 330000 ∨ b = 660000 ∨ b = 990000) := Iff.rfl

theorem LDACConfigureBitrate_of_tier (ext : LDAC_DEVICE_EXTENSION) (b : Nat)
    (h : IsBitrateTier b) :
    LDACConfigureBitrate ext b = (STATUS_SUCCESS, { ext with CurrentBitrate := b }) := by
  unfold LDACConfigureBitrate
  rw [if_neg]
  rintro ⟨h990, h660, h330⟩
  rcases h with h | h | h
  · exact h330 h
  · exact h660 h
  · exact h990 h

theorem LDACConfigureBitrate_of_not_tier (ext : LDAC_DEVICE_EXTENSION) (b : Nat)
    (h : ¬ IsBitrateTier b) :
    LDACConfigureBitrate ext b = (STATUS_INVALID_PARAMETER, ext) := by
  unfold LDACConfigureBitrate
  rw [if_pos]
  refine ⟨fun h990 => h ?_, fun h660 => h ?_, fun h330 => h ?_⟩
  · exact Or.inr (Or.inr h990)
  · exact Or.inr (Or.inl h660)
  · exact Or.inl h330

/-- The status and the effect of `IOCTL_LDAC_GET_STATUS` for any successful
retrieval status, not only `STATUS_SUCCESS`: the request is completed with the
status the retrieval returned. -/
theorem EvtIoDeviceControl_get_status (K : DriverConstants) (ext : LDAC_DEVICE_EXTENSION)
    (Request : WDFREQUEST) (OutputBufferLength InputBufferLength : Nat)
    (hlen : K.sizeof_LDAC_CODEC_CONFIG ≤ OutputBufferLength)
    (hret : NT_SUCCESS Request.RetrieveOutputStatus = true) :
    EvtIoDeviceControl K ext Request OutputBufferLength InputBufferLength
        K.IOCTL_LDAC_GET_STATUS =
      { DeviceExtension := ext
        Actions :=
          [.RetrieveOutputBuffer K.sizeof_LDAC_CODEC_CONFIG,
           .WriteOutputBuffer
              { Type_ := K.CodecTypeLDAC, Bitrate := ext.CurrentBitrate,
                SamplingFreq := 48000, ChannelMode := 2, BitDepth := 16 },
           .SetInformation K.sizeof_LDAC_CODEC_CONFIG,
           .Complete Request.RetrieveOutputStatus] } := by
  unfold EvtIoDeviceControl
  rw [if_neg (Ne.symm K.labels_distinct), if_pos rfl, if_pos hlen, if_pos hret]

/-- The effect of `IOCTL_LDAC_SET_BITRATE` once the input buffer is long
enough and handed out. -/
theorem EvtIoDeviceControl_set_bitrate (K : DriverConstants) (ext : LDAC_DEVICE_EXTENSION)
    (Request : WDFREQUEST) (OutputBufferLength InputBufferLength : Nat)
    (hlen : sizeof_ULONG ≤ InputBufferLength)
    (hret : NT_SUCCESS Request.RetrieveInputStatus = true) :
    EvtIoDeviceControl K ext Request OutputBufferLength InputBufferLength
        K.IOCTL_LDAC_SET_BITRATE =
      { DeviceExtension := (LDACConfigureBitrate ext Request.InputULong).2
        Actions :=
          [.RetrieveInputBuffer sizeof_ULONG, .ReadInputBuffer,
           .Complete (LDACConfigureBitrate ext Request.InputULong).1] } := by
  unfold EvtIoDeviceControl
  rw [if_pos rfl, if_pos hlen, if_pos hret]

/-- The effect of `IOCTL_LDAC_SET_BITRATE` when the framework refuses the
input buffer. -/
theorem EvtIoDeviceControl_set_retrieve_failed (K : DriverConstants)
    (ext : LDAC_DEVICE_EXTENSION) (Request : WDFREQUEST)
    (OutputBufferLength InputBufferLength : Nat)
    (hlen : sizeof_ULONG ≤ InputBufferLength)
    (hret : ¬ NT_SUCCESS Request.RetrieveInputStatus = true) :
    EvtIoDeviceControl K ext Request OutputBufferLength InputBufferLength
        K.IOCTL_LDAC_SET_BITRATE =
      { DeviceExtension := ext
        Actions :=
          [.RetrieveInputBuffer sizeof_ULONG, .Complete Request.RetrieveInputStatus] } := by
  unfold EvtIoDeviceControl
  rw [if_pos rfl, if_pos hlen, if_neg hret]

/-- The effect of `IOCTL_LDAC_SET_BITRATE` with too short an input buffer. -/
theorem EvtIoDeviceControl_set_short (K : DriverConstants)
    (ext : LDAC_DEVICE_EXTENSION) (Request : WDFREQUEST)
    (OutputBufferLength InputBufferLength : Nat)
    (hlen : InputBufferLength < sizeof_ULONG) :
    EvtIoDeviceControl K ext Request OutputBufferLength InputBufferLength
        K.IOCTL_LDAC_SET_BITRATE =
      { DeviceExtension := ext, Actions := [.Complete STATUS_INVALID_BUFFER_SIZE] } := by
  unfold EvtIoDeviceControl
  rw [if_pos rfl, if_neg (Nat.not_le.mpr hlen)]

/-- The effect of `IOCTL_LDAC_GET_STATUS` when the framework refuses the
output buffer. -/
theorem EvtIoDeviceControl_get_retrieve_failed (K : DriverConstants)
    (ext : LDAC_DEVICE_EXTENSION) (Request : WDFREQUEST)
    (OutputBufferLength InputBufferLength : Nat)
    (hlen : K.sizeof_LDAC_CODEC_CONFIG ≤ OutputBufferLength)
    (hret : ¬ NT_SUCCESS Request.RetrieveOutputStatus = true) :
    EvtIoDeviceControl K ext Request OutputBufferLength InputBufferLength
        K.IOCTL_LDAC_GET_STATUS =
      { DeviceExtension := ext
        Actions :=
          [.RetrieveOutputBuffer K.sizeof_LDAC_CODEC_CONFIG,
           .Complete Request.RetrieveOutputStatus] } := by
  unfold EvtIoDeviceControl
  rw [if_neg (Ne.symm K.labels_distinct), if_pos rfl, if_pos hlen, if_neg hret]

/-- The effect of `IOCTL_LDAC_GET_STATUS` with too short an output buffer. -/
theorem EvtIoDeviceControl_get_short (K : DriverConstants)
    (ext : LDAC_DEVICE_EXTENSION) (Request : WDFREQUEST)
    (OutputBufferLength InputBufferLength : Nat)
    (hlen : OutputBufferLength < K.sizeof_LDAC_CODEC_CONFIG) :
    EvtIoDeviceControl K ext Request OutputBufferLength InputBufferLength
        K.IOCTL_LDAC_GET_STATUS =
      { DeviceExtension := ext, Actions := [.Complete STATUS_INVALID_BUFFER_SIZE] } := by
  unfold EvtIoDeviceControl
  rw [if_neg (Ne.symm K.labels_distinct), if_pos rfl, if_neg (Nat.not_le.mpr hlen)]

/-- The effect of every other control code. -/
theorem EvtIoDeviceControl_default (K : DriverConstants)
    (ext : LDAC_DEVICE_EXTENSION) (Request : WDFREQUEST)
    (OutputBufferLength InputBufferLength IoControlCode : Nat)
    (hset : IoControlCode ≠ K.IOCTL_LDAC_SET_BITRATE)
    (hget : IoControlCode ≠ K.IOCTL_LDAC_GET_STATUS) :
    EvtIoDeviceControl K ext Request OutputBufferLength InputBufferLength IoControlCode =
      { DeviceExtension := ext, Actions := [.Complete STATUS_INVALID_DEVICE_REQUEST] } := by
  unfold EvtIoDeviceControl
  rw [if_neg hset, if_neg hget]

/-- The routine `LDACReadConfiguration` when the key does not open. -/
theorem LDACReadConfiguration_open_failed (reg : RegistryOutcome)
    (ext : LDAC_DEVICE_EXTENSION) (hopen : NT_SUCCESS reg.OpenStatus = false) :
    LDACReadConfiguration reg ext = (reg.OpenStatus, ext) := by
  unfold LDACReadConfiguration
  simp only [hopen, Bool.not_false, if_true]

/-- The routine `LDACReadConfiguration` when the key opens and the query
fails. -/
theorem LDACReadConfiguration_query_failed (reg : RegistryOutcome)
    (ext : LDAC_DEVICE_EXTENSION) (hopen : NT_SUCCESS reg.OpenStatus = true)
    (hquery : NT_SUCCESS reg.QueryStatus = false) :
    LDACReadConfiguration reg ext = (STATUS_SUCCESS, ext) := by
  unfold LDACReadConfiguration
  simp [hopen, hquery]

/-- The routine `LDACReadConfiguration` when the key opens and the query
succeeds. -/
theorem LDACReadConfiguration_read (reg : RegistryOutcome)
    (ext : LDAC_DEVICE_EXTENSION) (hopen : NT_SUCCESS reg.OpenStatus = true)
    (hquery : NT_SUCCESS reg.QueryStatus = true) :
    LDACReadConfiguration reg ext =
      (STATUS_SUCCESS, { ext with CurrentBitrate := reg.Value }) := by
  unfold LDACReadConfiguration
  simp [hopen, hquery]

/-! ## What a sequence of operations can change -/

theorem LDACConfigureBitrate_frame (ext : LDAC_DEVICE_EXTENSION) (b : Nat) :
    (LDACConfigureBitrate ext b).2 =
        { ext with CurrentBitrate := (LDACConfigureBitrate ext b).2.CurrentBitrate } ∧
    ((LDACConfigureBitrate ext b).2.CurrentBitrate = ext.CurrentBitrate ∨
      IsBitrateTier (LDACConfigureBitrate ext b).2.CurrentBitrate) := by
  by_cases h : IsBitrateTier b
  · rw [LDACConfigureBitrate_of_tier ext b h]
    exact ⟨rfl, Or.inr h⟩
  · rw [LDACConfigureBitrate_of_not_tier ext b h]
    exact ⟨rfl, Or.inl rfl⟩

theorem LDACNegotiateCodec_frame {α : Type} (ext : LDAC_DEVICE_EXTENSION) (caps : α)
    (len : Nat) :
    (LDACNegotiateCodec ext caps len).2 =
        { ext with CurrentBitrate := (LDACNegotiateCodec ext caps len).2.CurrentBitrate } ∧
    ((LDACNegotiateCodec ext caps len).2.CurrentBitrate = ext.CurrentBitrate ∨
      IsBitrateTier (LDACNegotiateCodec ext caps len).2.CurrentBitrate) := by
  unfold LDACNegotiateCodec
  by_cases h : ext.IsLDACEnabled = true
  · rw [if_pos h]
    exact ⟨rfl, Or.inr (Or.inr (Or.inr rfl))⟩
  · rw [if_neg h]
    exact ⟨rfl, Or.inl rfl⟩

theorem EvtIoDeviceControl_frame (K : DriverConstants) (ext : LDAC_DEVICE_EXTENSION)
    (Request : WDFREQUEST) (OutputBufferLength InputBufferLength IoControlCode : Nat) :
    (EvtIoDeviceControl K ext Request OutputBufferLength InputBufferLength
        IoControlCode).DeviceExtension =
      { ext with CurrentBitrate :=
          (EvtIoDeviceControl K ext Request OutputBufferLength InputBufferLength
            IoControlCode).DeviceExtension.CurrentBitrate } ∧
    ((EvtIoDeviceControl K ext Request OutputBufferLength InputBufferLength
        IoControlCode).DeviceExtension.CurrentBitrate = ext.CurrentBitrate ∨
      IsBitrateTier (EvtIoDeviceControl K ext Request OutputBufferLength InputBufferLength
        IoControlCode).DeviceExtension.CurrentBitrate) := by
  by_cases hset : IoControlCode = K.IOCTL_LDAC_SET_BITRATE
  · rw [hset]
    by_cases hlen : sizeof_ULONG ≤ InputBufferLength
    · by_cases hret : NT_SUCCESS Request.RetrieveInputStatus = true
      · rw [EvtIoDeviceControl_set_bitrate K ext Request _ _ hlen hret]
        exact LDACConfigureBitrate_frame ext Request.InputULong
      · rw [EvtIoDeviceControl_set_retrieve_failed K ext Request _ _ hlen hret]
        exact ⟨rfl, Or.inl rfl⟩
    · rw [EvtIoDeviceControl_set_short K ext Request _ _ (Nat.not_le.mp hlen)]
      exact ⟨rfl, Or.inl rfl⟩
  · by_cases hget : IoControlCode = K.IOCTL_LDAC_GET_STATUS
    · rw [hget]
      by_cases hlen : K.sizeof_LDAC_CODEC_CONFIG ≤ OutputBufferLength
      · by_cases hret : NT_SUCCESS Request.RetrieveOutputStatus = true
        · rw [EvtIoDeviceControl_get_status K ext Request _ _ hlen hret]
          exact ⟨rfl, Or.inl rfl⟩
        · rw [EvtIoDeviceControl_get_retrieve_failed K ext Request _ _ hlen hret]
          exact ⟨rfl, Or.inl rfl⟩
      · rw [EvtIoDeviceControl_get_short K ext Request _ _ (Nat.not_le.mp hlen)]
        exact ⟨rfl, Or.inl rfl⟩
    · rw [EvtIoDeviceControl_default K ext Request _ _ _ hset hget]
      exact ⟨rfl, Or.inl rfl⟩

/-- One operation raises `IsLDACEnabled` exactly when it is
`EvtPrepareHardware`, and never lowers it. -/
theorem stepOp_IsLDACEnabled (K : DriverConstants) (ext : LDAC_DEVICE_EXTENSION)
    (op : DriverOp) :
    (stepOp K ext op).IsLDACEnabled = (ext.IsLDACEnabled || op.isPrepareHardware) := by
  cases op with
  | PrepareHardware raw translated =>
      simp [stepOp, EvtPrepareHardware, LDACIsDeviceSupported, DriverOp.isPrepareHardware]
  | ReleaseHardware translated =>
      simp [stepOp, EvtReleaseHardware, DriverOp.isPrepareHardware]
  | IoDeviceControl req outLen inLen code =>
      have h := (EvtIoDeviceControl_frame K ext req outLen inLen code).1
      simp only [stepOp, DriverOp.isPrepareHardware, Bool.or_false]
      rw [h]
  | IoRead len => simp [stepOp, EvtIoRead, DriverOp.isPrepareHardware]
  | IoWrite len => simp [stepOp, EvtIoWrite, DriverOp.isPrepareHardware]
  | NegotiateCodec caps len =>
      have h := (LDACNegotiateCodec_frame ext caps len).1
      simp only [stepOp, DriverOp.isPrepareHardware, Bool.or_false]
      rw [h]
  | ConfigureBitrate target =>
      have h := (LDACConfigureBitrate_frame ext target).1
      simp only [stepOp, DriverOp.isPrepareHardware, Bool.or_false]
      rw [h]

/-- After a sequence of operations `IsLDACEnabled` is set exactly when it was
set before or the sequence holds a call of `EvtPrepareHardware`. -/
theorem runOps_IsLDACEnabled (K : DriverConstants) (ops : List DriverOp) :
    ∀ ext : LDAC_DEVICE_EXTENSION,
      (runOps K ext ops).IsLDACEnabled =
        (ext.IsLDACEnabled || ops.any DriverOp.isPrepareHardware) := by
  induction ops with
  | nil => intro ext; simp [runOps]
  | cons op rest ih =>
      intro ext
      have hrun : runOps K ext (op :: rest) = runOps K (stepOp K ext op) rest := rfl
      rw [hrun, ih (stepOp K ext op), stepOp_IsLDACEnabled, List.any_cons, Bool.or_assoc]

/-- One operation keeps the bitrate among the three tiers. -/
theorem stepOp_keeps_tier (K : DriverConstants) (ext : LDAC_DEVICE_EXTENSION)
    (op : DriverOp) (h : IsBitrateTier ext.CurrentBitrate) :
    IsBitrateTier (stepOp K ext op).CurrentBitrate := by
  cases op with
  | PrepareHardware raw translated => exact h
  | ReleaseHardware translated => exact h
  | IoDeviceControl req outLen inLen code =>
      rcases (EvtIoDeviceControl_frame K ext req outLen inLen code).2 with h' | h'
      · simp only [stepOp]; rw [h']; exact h
      · exact h'
  | IoRead len => exact h
  | IoWrite len => exact h
  | NegotiateCodec caps len =>
      rcases (LDACNegotiateCodec_frame ext caps len).2 with h' | h'
      · simp only [stepOp]; rw [h']; exact h
      · exact h'
  | ConfigureBitrate target =>
      rcases (LDACConfigureBitrate_frame ext target).2 with h' | h'
      · simp only [stepOp]; rw [h']; exact h
      · exact h'

/-- A sequence of operations keeps the bitrate among the three tiers: no
operation after device creation can leave the tier set. -/
theorem runOps_keeps_tier (K : DriverConstants) (ops : List DriverOp) :
    ∀ ext : LDAC_DEVICE_EXTENSION, IsBitrateTier ext.CurrentBitrate →
      IsBitrateTier (runOps K ext ops).CurrentBitrate := by
  induction ops with
  | nil => intro ext h; exact h
  | cons op rest ih =>
      intro ext h
      exact ih (stepOp K ext op) (stepOp_keeps_tier K ext op h)

/-- What `EvtDeviceAdd` leaves in the extension it initialised: LDAC is
disabled, and the bitrate is `LDAC_BITRATE_990` unless the registry read
replaced it by the value of `"PreferredBitrate"`. -/
theorem EvtDeviceAdd_extension (fw : DeviceAddOutcome) (ext : LDAC_DEVICE_EXTENSION)
    (h : (EvtDeviceAdd fw).2 = some ext) :
    ext.IsLDACEnabled = false ∧
    (ext.CurrentBitrate = LDAC_BITRATE_990 ∨
      (NT_SUCCESS fw.Registry.OpenStatus = true ∧ NT_SUCCESS fw.Registry.QueryStatus = true ∧
        ext.CurrentBitrate = fw.Registry.Value)) := by
  unfold EvtDeviceAdd at h
  simp only [] at h
  split_ifs at h
  · simp only [Option.some.injEq] at h; subst h; exact ⟨rfl, Or.inl rfl⟩
  · simp only [Option.some.injEq] at h; subst h; exact ⟨rfl, Or.inl rfl⟩
  · simp only [Option.some.injEq] at h; subst h; exact ⟨rfl, Or.inl rfl⟩
  · simp only [Option.some.injEq] at h; subst h; exact ⟨rfl, Or.inl rfl⟩
  · simp only [Option.some.injEq] at h
    subst h
    cases hopen : NT_SUCCESS fw.Registry.OpenStatus
    · rw [LDACReadConfiguration_open_failed _ _ hopen]
      exact ⟨rfl, Or.inl rfl⟩
    · cases hquery : NT_SUCCESS fw.Registry.QueryStatus
      · rw [LDACReadConfiguration_query_failed _ _ hopen hquery]
        exact ⟨rfl, Or.inl rfl⟩
      · rw [LDACReadConfiguration_read _ _ hopen hquery]
        exact ⟨rfl, Or.inr ⟨rfl, rfl, rfl⟩⟩

/-- The bitrate stays among the three tiers in every state reached from a
device creation whose registry read either stores nothing or stores one of
the three tiers. -/
theorem reachable_bitrate_is_tier (K : DriverConstants) (fw : DeviceAddOutcome)
    (ext : LDAC_DEVICE_EXTENSION) (ops : List DriverOp)
    (hadd : (EvtDeviceAdd fw).2 = some ext)
    (hreg : NT_SUCCESS fw.Registry.OpenStatus = true →
      NT_SUCCESS fw.Registry.QueryStatus = true → IsBitrateTier fw.Registry.Value) :
    IsBitrateTier (runOps K ext ops).CurrentBitrate := by
  apply runOps_keeps_tier
  rcases (EvtDeviceAdd_extension fw ext hadd).2 with h | ⟨hopen, hquery, h⟩
  · rw [h]; exact Or.inr (Or.inr rfl)
  · rw [h]; exact hreg hopen hquery

/-! ## Claims -/

/-- C1: `LDACConfigureBitrate` returns `STATUS_SUCCESS` if and only if the
target bitrate is 990000, 660000 or 330000 (the three `LDAC_BITRATE_*`
tiers); in that case the extension afterwards is the old one with
`CurrentBitrate` equal to the target; in every other case the routine returns
`STATUS_INVALID_PARAMETER` and the extension is unchanged. -/
theorem C1_LDACConfigureBitrate_contract (ext : LDAC_DEVICE_EXTENSION) (TargetBitrate : Nat) :
    ((LDACConfigureBitrate ext TargetBitrate).1 = STATUS_SUCCESS ↔
      (TargetBitrate = 990000 ∨ TargetBitrate = 660000 ∨ TargetBitrate = 330000)) ∧
    ((TargetBitrate = LDAC_BITRATE_990 ∨ TargetBitrate = LDAC_BITRATE_660 ∨
        TargetBitrate = LDAC_BITRATE_330) ↔
      (TargetBitrate = 990000 ∨ TargetBitrate = 660000 ∨ TargetBitrate = 330000)) ∧
    ((TargetBitrate = 990000 ∨ TargetBitrate = 660000 ∨ TargetBitrate = 330000) →
      (LDACConfigureBitrate ext TargetBitrate).2.CurrentBitrate = TargetBitrate ∧
      (LDACConfigureBitrate ext TargetBitrate).2 =
        { ext with CurrentBitrate := TargetBitrate }) ∧
    (¬ (TargetBitrate = 990000 ∨ TargetBitrate = 660000 ∨ TargetBitrate = 330000) →
      LDACConfigureBitrate ext TargetBitrate = (STATUS_INVALID_PARAMETER, ext)) := by
  by_cases h : IsBitrateTier TargetBitrate
  · have htier : TargetBitrate = 990000 ∨ TargetBitrate = 660000 ∨ TargetBitrate = 330000 := by
      rcases h with h | h | h
      · exact Or.inr (Or.inr h)
      · exact Or.inr (Or.inl h)
      · exact Or.inl h
    rw [LDACConfigureBitrate_of_tier ext _ h]
    exact ⟨⟨fun _ => htier, fun _ => rfl⟩, Iff.rfl, fun _ => ⟨rfl, rfl⟩,
      fun hn => absurd htier hn⟩
  · have hnot : ¬ (TargetBitrate = 990000 ∨ TargetBitrate = 660000 ∨ TargetBitrate = 330000) := by
      intro ht
      apply h
      rcases ht with ht | ht | ht
      · exact Or.inr (Or.inr ht)
      · exact Or.inr (Or.inl ht)
      · exact Or.inl ht
    rw [LDACConfigureBitrate_of_not_tier ext _ h]
    exact ⟨⟨fun hs => absurd hs STATUS_INVALID_PARAMETER_ne_SUCCESS, fun ht => absurd ht hnot⟩,
      Iff.rfl, fun ht => absurd ht hnot, fun _ => rfl⟩

/-- C3: for every device extension and every request whose output buffer is at
least `sizeof(LDAC_CODEC_CONFIG)` bytes long and is retrieved with
`STATUS_SUCCESS`, `EvtIoDeviceControl` with `IOCTL_LDAC_GET_STATUS` completes
the request once, with `STATUS_SUCCESS`; it stores `Type = CodecTypeLDAC`,
`Bitrate = CurrentBitrate`, `SamplingFreq = 48000`, `ChannelMode = 2`,
`BitDepth = 16`; it sets the request information to
`sizeof(LDAC_CODEC_CONFIG)`; the device extension is unchanged. -/
theorem C3_get_status_reports_configuration (K : DriverConstants)
    (ext : LDAC_DEVICE_EXTENSION) (Request : WDFREQUEST)
    (OutputBufferLength InputBufferLength : Nat)
    (hlen : K.sizeof_LDAC_CODEC_CONFIG ≤ OutputBufferLength)
    (hret : Request.RetrieveOutputStatus = STATUS_SUCCESS) :
    (EvtIoDeviceControl K ext Request OutputBufferLength InputBufferLength
        K.IOCTL_LDAC_GET_STATUS).DeviceExtension = ext ∧
    completions (EvtIoDeviceControl K ext Request OutputBufferLength InputBufferLength
        K.IOCTL_LDAC_GET_STATUS).Actions = [STATUS_SUCCESS] ∧
    outputWrites (EvtIoDeviceControl K ext Request OutputBufferLength InputBufferLength
        K.IOCTL_LDAC_GET_STATUS).Actions =
      [{ Type_ := K.CodecTypeLDAC, Bitrate := ext.CurrentBitrate,
         SamplingFreq := 48000, ChannelMode := 2, BitDepth := 16 }] ∧
    informationSet (EvtIoDeviceControl K ext Request OutputBufferLength InputBufferLength
        K.IOCTL_LDAC_GET_STATUS).Actions = [K.sizeof_LDAC_CODEC_CONFIG] := by
  have hok : NT_SUCCESS Request.RetrieveOutputStatus = true := by
    rw [hret]; exact NT_SUCCESS_STATUS_SUCCESS
  rw [EvtIoDeviceControl_get_status K ext Request _ _ hlen hok, hret]
  exact ⟨rfl, rfl, rfl, rfl⟩

/-- Instance of C3: a 16-byte output buffer on the sample extension. -/
theorem C3_get_status_reports_configuration_witness :
    sampleConstants.sizeof_LDAC_CODEC_CONFIG ≤ 16 ∧
    sampleRequest.RetrieveOutputStatus = STATUS_SUCCESS ∧
    outputWrites (EvtIoDeviceControl sampleConstants sampleExtension sampleRequest 16 0
        sampleConstants.IOCTL_LDAC_GET_STATUS).Actions =
      [{ Type_ := 1, Bitrate := 660000, SamplingFreq := 48000, ChannelMode := 2,
         BitDepth := 16 }] :=
  ⟨by decide, rfl,
    (C3_get_status_reports_configuration sampleConstants sampleExtension sampleRequest 16 0
      (by decide) rfl).2.2.1⟩

/-- C4: for every control code other than `IOCTL_LDAC_SET_BITRATE` and
`IOCTL_LDAC_GET_STATUS`, and for every pair of buffer lengths,
`EvtIoDeviceControl` does nothing but complete the request with
`STATUS_INVALID_DEVICE_REQUEST`: no buffer is retrieved, nothing is written to
the output, and the device extension is unchanged. -/
theorem C4_other_codes_rejected (K : DriverConstants) (ext : LDAC_DEVICE_EXTENSION)
    (Request : WDFREQUEST) (OutputBufferLength InputBufferLength IoControlCode : Nat)
    (hset : IoControlCode ≠ K.IOCTL_LDAC_SET_BITRATE)
    (hget : IoControlCode ≠ K.IOCTL_LDAC_GET_STATUS) :
    EvtIoDeviceControl K ext Request OutputBufferLength InputBufferLength IoControlCode =
      { DeviceExtension := ext, Actions := [.Complete STATUS_INVALID_DEVICE_REQUEST] } ∧
    outputWrites (EvtIoDeviceControl K ext Request OutputBufferLength InputBufferLength
        IoControlCode).Actions = [] ∧
    completions (EvtIoDeviceControl K ext Request OutputBufferLength InputBufferLength
        IoControlCode).Actions = [STATUS_INVALID_DEVICE_REQUEST] := by
  rw [EvtIoDeviceControl_default K ext Request _ _ _ hset hget]
  exact ⟨rfl, rfl, rfl⟩

/-- Instance of C4: control code 7 with large buffers. -/
theorem C4_other_codes_rejected_witness :
    (7 : Nat) ≠ sampleConstants.IOCTL_LDAC_SET_BITRATE ∧
    (7 : Nat) ≠ sampleConstants.IOCTL_LDAC_GET_STATUS ∧
    EvtIoDeviceControl sampleConstants sampleExtension sampleRequest 64 64 7 =
      { DeviceExtension := sampleExtension
        Actions := [.Complete STATUS_INVALID_DEVICE_REQUEST] } :=
  ⟨by decide, by decide,
    (C4_other_codes_rejected sampleConstants sampleExtension sampleRequest 64 64 7
      (by decide) (by decide)).1⟩

/-- C5: with `IsLDACEnabled` true, `LDACNegotiateCodec` returns
`STATUS_SUCCESS` and sets `CurrentBitrate` to `LDAC_BITRATE_990` = 990000
whatever it was, changing no other field, for every capability argument and
length; with `IsLDACEnabled` false it returns `STATUS_NOT_SUPPORTED` and
changes nothing; two calls on the same extension that differ only in the
capability arguments give the same status and the same extension. -/
theorem C5_negotiation_is_constant_assignment (ext : LDAC_DEVICE_EXTENSION) :
    (ext.IsLDACEnabled = true →
      ∀ (α : Type) (caps : α) (len : Nat),
        LDACNegotiateCodec ext caps len =
          (STATUS_SUCCESS, { ext with CurrentBitrate := 990000 })) ∧
    (ext.IsLDACEnabled = false →
      ∀ (α : Type) (caps : α) (len : Nat),
        LDACNegotiateCodec ext caps len = (STATUS_NOT_SUPPORTED, ext)) ∧
    (∀ (α β : Type) (caps₁ : α) (len₁ : Nat) (caps₂ : β) (len₂ : Nat),
        LDACNegotiateCodec ext caps₁ len₁ = LDACNegotiateCodec ext caps₂ len₂) ∧
    LDAC_BITRATE_990 = 990000 := by
  refine ⟨?_, ?_, ?_, rfl⟩
  · intro h α caps len
    unfold LDACNegotiateCodec
    rw [if_pos h]
    rfl
  · intro h α caps len
    unfold LDACNegotiateCodec
    rw [if_neg (by simp [h])]
  · intro α β caps₁ len₁ caps₂ len₂
    rfl

/-- Instance of C5: the sample extension moves from 660000 to 990000, for an
empty and for a three-byte capability blob alike. -/
theorem C5_negotiation_is_constant_assignment_witness :
    LDACNegotiateCodec sampleExtension ([] : List Nat) 0 =
      (STATUS_SUCCESS, { sampleExtension with CurrentBitrate := 990000 }) ∧
    LDACNegotiateCodec sampleExtension ([] : List Nat) 0 =
      LDACNegotiateCodec sampleExtension [0x2D, 1, 2] 3 :=
  ⟨(C5_negotiation_is_constant_assignment sampleExtension).1 rfl (List Nat) [] 0,
    (C5_negotiation_is_constant_assignment sampleExtension).2.2.1
      (List Nat) (List Nat) [] 0 [0x2D, 1, 2] 3⟩

/-- C8: `LDACReadConfiguration` changes no field other than `CurrentBitrate`;
when the parameters key opens and the `"PreferredBitrate"` query succeeds the
extension afterwards is the old one with `CurrentBitrate` set to the value
read, and otherwise the whole extension is unchanged; the routine returns the
status of the open call when opening fails (and only then a failure status),
and `STATUS_SUCCESS` otherwise, also when the query fails. -/
theorem C8_registry_read_sets_one_integer (reg : RegistryOutcome)
    (ext : LDAC_DEVICE_EXTENSION) :
    (LDACReadConfiguration reg ext).2 =
      { ext with CurrentBitrate := (LDACReadConfiguration reg ext).2.CurrentBitrate } ∧
    (NT_SUCCESS reg.OpenStatus = true ∧ NT_SUCCESS reg.QueryStatus = true →
      (LDACReadConfiguration reg ext).2 = { ext with CurrentBitrate := reg.Value }) ∧
    (¬ (NT_SUCCESS reg.OpenStatus = true ∧ NT_SUCCESS reg.QueryStatus = true) →
      (LDACReadConfiguration reg ext).2 = ext) ∧
    (NT_SUCCESS reg.OpenStatus = false →
      (LDACReadConfiguration reg ext).1 = reg.OpenStatus) ∧
    (NT_SUCCESS reg.OpenStatus = true →
      (LDACReadConfiguration reg ext).1 = STATUS_SUCCESS) ∧
    (NT_SUCCESS (LDACReadConfiguration reg ext).1 = false ↔
      NT_SUCCESS reg.OpenStatus = false) := by
  cases hopen : NT_SUCCESS reg.OpenStatus
  · rw [LDACReadConfiguration_open_failed reg ext hopen]
    simp [hopen]
  · cases hquery : NT_SUCCESS reg.QueryStatus
    · rw [LDACReadConfiguration_query_failed reg ext hopen hquery]
      simp [NT_SUCCESS_STATUS_SUCCESS]
    · rw [LDACReadConfiguration_read reg ext hopen hquery]
      simp [NT_SUCCESS_STATUS_SUCCESS]

/-- Instance of C8: the key opens and the query stores 330000. -/
theorem C8_registry_read_sets_one_integer_witness :
    LDACReadConfiguration { OpenStatus := 0, QueryStatus := 0, Value := 330000 }
        sampleExtension =
      (STATUS_SUCCESS, { sampleExtension with CurrentBitrate := 330000 }) :=
  Prod.ext
    ((C8_registry_read_sets_one_integer
        { OpenStatus := 0, QueryStatus := 0, Value := 330000 } sampleExtension).2.2.2.2.1
      (by decide))
    ((C8_registry_read_sets_one_integer
        { OpenStatus := 0, QueryStatus := 0, Value := 330000 } sampleExtension).2.1
      ⟨by decide, by decide⟩)

/-- C9: let a `IOCTL_LDAC_SET_BITRATE` request carry `b` in an input buffer of
at least `sizeof(ULONG)` bytes that is retrieved successfully, and let it be
followed at once by a `IOCTL_LDAC_GET_STATUS` request with an output buffer of
at least `sizeof(LDAC_CODEC_CONFIG)` bytes that is retrieved successfully.
If `b` is 330000, 660000 or 990000, the first request completes with
`STATUS_SUCCESS` and the second reports `Bitrate = b`; for every other `b` the
first completes with `STATUS_INVALID_PARAMETER` and the second reports the
bitrate that was current before the first. -/
theorem C9_set_then_get_round_trip (K : DriverConstants) (ext : LDAC_DEVICE_EXTENSION)
    (setRequest getRequest : WDFREQUEST) (b : Nat)
    (setOutputLength setInputLength getOutputLength getInputLength : Nat)
    (hb : setRequest.InputULong = b)
    (hsetLen : sizeof_ULONG ≤ setInputLength)
    (hsetRet : NT_SUCCESS setRequest.RetrieveInputStatus = true)
    (hgetLen : K.sizeof_LDAC_CODEC_CONFIG ≤ getOutputLength)
    (hgetRet : NT_SUCCESS getRequest.RetrieveOutputStatus = true) :
    ((b = 330000 ∨ b = 660000 ∨ b = 990000) →
      completions (EvtIoDeviceControl K ext setRequest setOutputLength setInputLength
          K.IOCTL_LDAC_SET_BITRATE).Actions = [STATUS_SUCCESS] ∧
      outputWrites (EvtIoDeviceControl K
          (EvtIoDeviceControl K ext setRequest setOutputLength setInputLength
            K.IOCTL_LDAC_SET_BITRATE).DeviceExtension
          getRequest getOutputLength getInputLength K.IOCTL_LDAC_GET_STATUS).Actions =
        [{ Type_ := K.CodecTypeLDAC, Bitrate := b,
           SamplingFreq := 48000, ChannelMode := 2, BitDepth := 16 }]) ∧
    (¬ (b = 330000 ∨ b = 660000 ∨ b = 990000) →
      completions (EvtIoDeviceControl K ext setRequest setOutputLength setInputLength
          K.IOCTL_LDAC_SET_BITRATE).Actions = [STATUS_INVALID_PARAMETER] ∧
      outputWrites (EvtIoDeviceControl K
          (EvtIoDeviceControl K ext setRequest setOutputLength setInputLength
            K.IOCTL_LDAC_SET_BITRATE).DeviceExtension
          getRequest getOutputLength getInputLength K.IOCTL_LDAC_GET_STATUS).Actions =
        [{ Type_ := K.CodecTypeLDAC, Bitrate := ext.CurrentBitrate,
           SamplingFreq := 48000, ChannelMode := 2, BitDepth := 16 }]) := by
  rw [EvtIoDeviceControl_set_bitrate K ext setRequest _ _ hsetLen hsetRet, hb]
  constructor
  · intro ht
    rw [LDACConfigureBitrate_of_tier ext b ht,
      EvtIoDeviceControl_get_status K _ getRequest _ _ hgetLen hgetRet]
    exact ⟨rfl, rfl⟩
  · intro hn
    rw [LDACConfigureBitrate_of_not_tier ext b hn,
      EvtIoDeviceControl_get_status K _ getRequest _ _ hgetLen hgetRet]
    exact ⟨rfl, rfl⟩

/-- Instance of C9: setting 330000 on the sample extension (at 660000), then
reading the status. -/
theorem C9_set_then_get_round_trip_witness :
    completions (EvtIoDeviceControl sampleConstants sampleExtension sampleRequest 0 4
        sampleConstants.IOCTL_LDAC_SET_BITRATE).Actions = [STATUS_SUCCESS] ∧
    outputWrites (EvtIoDeviceControl sampleConstants
        (EvtIoDeviceControl sampleConstants sampleExtension sampleRequest 0 4
          sampleConstants.IOCTL_LDAC_SET_BITRATE).DeviceExtension
        sampleRequest 16 0 sampleConstants.IOCTL_LDAC_GET_STATUS).Actions =
      [{ Type_ := 1, Bitrate := 330000, SamplingFreq := 48000, ChannelMode := 2,
         BitDepth := 16 }] :=
  (C9_set_then_get_round_trip sampleConstants sampleExtension sampleRequest sampleRequest
    330000 0 4 16 0 rfl (by decide) (by decide) (by decide) (by decide)).1 (Or.inl rfl)

/-- C10: `EvtIoDeviceControl` with `IOCTL_LDAC_SET_BITRATE` and an input
length below `sizeof(ULONG)`, or with `IOCTL_LDAC_GET_STATUS` and an output
length below `sizeof(LDAC_CODEC_CONFIG)`, does nothing but complete the request
with `STATUS_INVALID_BUFFER_SIZE`: no buffer of the request is retrieved, read
or written, and the device extension is unchanged.  For every input whatever,
`EvtIoDeviceControl` calls `WdfRequestComplete` exactly once, as its last
action. -/
theorem C10_undersized_buffers_rejected (K : DriverConstants) (ext : LDAC_DEVICE_EXTENSION)
    (Request : WDFREQUEST) (OutputBufferLength InputBufferLength IoControlCode : Nat) :
    ((IoControlCode = K.IOCTL_LDAC_SET_BITRATE ∧ InputBufferLength < sizeof_ULONG) ∨
      (IoControlCode = K.IOCTL_LDAC_GET_STATUS ∧
        OutputBufferLength < K.sizeof_LDAC_CODEC_CONFIG) →
      EvtIoDeviceControl K ext Request OutputBufferLength InputBufferLength IoControlCode =
        { DeviceExtension := ext, Actions := [.Complete STATUS_INVALID_BUFFER_SIZE] } ∧
      (EvtIoDeviceControl K ext Request OutputBufferLength InputBufferLength
        IoControlCode).Actions.any RequestAction.touchesBuffer = false) ∧
    (∃ status prior,
      (EvtIoDeviceControl K ext Request OutputBufferLength InputBufferLength
        IoControlCode).Actions = prior ++ [.Complete status] ∧
      completions prior = [] ∧
      completions (EvtIoDeviceControl K ext Request OutputBufferLength InputBufferLength
        IoControlCode).Actions = [status]) := by
  constructor
  · rintro (⟨hcode, hlen⟩ | ⟨hcode, hlen⟩)
    · rw [hcode, EvtIoDeviceControl_set_short K ext Request _ _ hlen]
      exact ⟨rfl, rfl⟩
    · rw [hcode, EvtIoDeviceControl_get_short K ext Request _ _ hlen]
      exact ⟨rfl, rfl⟩
  · by_cases hset : IoControlCode = K.IOCTL_LDAC_SET_BITRATE
    · rw [hset]
      by_cases hlen : sizeof_ULONG ≤ InputBufferLength
      · by_cases hret : NT_SUCCESS Request.RetrieveInputStatus = true
        · rw [EvtIoDeviceControl_set_bitrate K ext Request _ _ hlen hret]
          exact ⟨_, [.RetrieveInputBuffer sizeof_ULONG, .ReadInputBuffer], rfl, rfl, rfl⟩
        · rw [EvtIoDeviceControl_set_retrieve_failed K ext Request _ _ hlen hret]
          exact ⟨_, [.RetrieveInputBuffer sizeof_ULONG], rfl, rfl, rfl⟩
      · rw [EvtIoDeviceControl_set_short K ext Request _ _ (Nat.not_le.mp hlen)]
        exact ⟨_, [], rfl, rfl, rfl⟩
    · by_cases hget : IoControlCode = K.IOCTL_LDAC_GET_STATUS
      · rw [hget]
        by_cases hlen : K.sizeof_LDAC_CODEC_CONFIG ≤ OutputBufferLength
        · by_cases hret : NT_SUCCESS Request.RetrieveOutputStatus = true
          · rw [EvtIoDeviceControl_get_status K ext Request _ _ hlen hret]
            exact ⟨_, [.RetrieveOutputBuffer K.sizeof_LDAC_CODEC_CONFIG,
              .WriteOutputBuffer _, .SetInformation K.sizeof_LDAC_CODEC_CONFIG],
              rfl, rfl, rfl⟩
          · rw [EvtIoDeviceControl_get_retrieve_failed K ext Request _ _ hlen hret]
            exact ⟨_, [.RetrieveOutputBuffer K.sizeof_LDAC_CODEC_CONFIG], rfl, rfl, rfl⟩
        · rw [EvtIoDeviceControl_get_short K ext Request _ _ (Nat.not_le.mp hlen)]
          exact ⟨_, [], rfl, rfl, rfl⟩
      · rw [EvtIoDeviceControl_default K ext Request _ _ _ hset hget]
        exact ⟨_, [], rfl, rfl, rfl⟩

/-- Instance of C10: a three-byte input buffer for `IOCTL_LDAC_SET_BITRATE`. -/
theorem C10_undersized_buffers_rejected_witness :
    EvtIoDeviceControl sampleConstants sampleExtension sampleRequest 16 3
        sampleConstants.IOCTL_LDAC_SET_BITRATE =
      { DeviceExtension := sampleExtension
        Actions := [.Complete STATUS_INVALID_BUFFER_SIZE] } :=
  ((C10_undersized_buffers_rejected sampleConstants sampleExtension sampleRequest 16 3
      sampleConstants.IOCTL_LDAC_SET_BITRATE).1 (Or.inl ⟨rfl, by decide⟩)).1

/-- C2, the defect: `EvtDeviceAdd` with every framework call succeeding and
`PreferredBitrate = 12345` in the registry returns `STATUS_SUCCESS` and leaves
`CurrentBitrate = 12345`, which is none of 330000, 660000, 990000;
`IOCTL_LDAC_GET_STATUS` then reports 12345, a value that
`LDACConfigureBitrate` itself rejects with `STATUS_INVALID_PARAMETER`. -/
theorem C2_registry_value_stored_unchecked :
    EvtDeviceAdd oddRegistryDeviceAdd =
      (STATUS_SUCCESS,
        some { Device := 1, CurrentBitrate := 12345, IsLDACEnabled := false,
               IsExclusiveMode := false, DefaultQueue := 2, ManualQueue := 3,
               QueueLock := 4, CodecTimer := 5 }) ∧
    ¬ IsBitrateTier 12345 ∧
    (∀ ext, (EvtDeviceAdd oddRegistryDeviceAdd).2 = some ext →
      ext.CurrentBitrate = 12345 ∧
      (runOps sampleConstants ext
        [.ReleaseHardware 0, .PrepareHardware 0 0, .IoRead 8]).CurrentBitrate = 12345 ∧
      outputWrites (EvtIoDeviceControl sampleConstants ext sampleRequest 16 0
          sampleConstants.IOCTL_LDAC_GET_STATUS).Actions =
        [{ Type_ := 1, Bitrate := 12345, SamplingFreq := 48000, ChannelMode := 2,
           BitDepth := 16 }] ∧
      LDACConfigureBitrate ext 12345 = (STATUS_INVALID_PARAMETER, ext)) := by
  have hadd : EvtDeviceAdd oddRegistryDeviceAdd =
      (STATUS_SUCCESS,
        some { Device := 1, CurrentBitrate := 12345, IsLDACEnabled := false,
               IsExclusiveMode := false, DefaultQueue := 2, ManualQueue := 3,
               QueueLock := 4, CodecTimer := 5 }) := by decide
  refine ⟨hadd, by decide, ?_⟩
  intro ext hext
  rw [hadd] at hext
  simp only [Option.some.injEq] at hext
  subst hext
  exact ⟨rfl, by decide, by decide, by decide⟩

/-- C6, refutation as stated: right after a device creation in which every
framework call succeeds, and also after a following bitrate change and
`IOCTL_LDAC_GET_STATUS`, `IsLDACEnabled` is still `FALSE` and
`LDACNegotiateCodec` returns `STATUS_NOT_SUPPORTED`. -/
theorem C6_counterexample :
    (EvtDeviceAdd plainDeviceAdd).1 = STATUS_SUCCESS ∧
    (∃ ext, (EvtDeviceAdd plainDeviceAdd).2 = some ext ∧
      (LDACNegotiateCodec (runOps sampleConstants ext []) [0x2D] 1).1 =
        STATUS_NOT_SUPPORTED ∧
      (LDACNegotiateCodec
        (runOps sampleConstants ext
          [.ConfigureBitrate 660000,
           .IoDeviceControl sampleRequest 16 0 sampleConstants.IOCTL_LDAC_GET_STATUS])
        [0x2D] 1).1 = STATUS_NOT_SUPPORTED) ∧
    STATUS_NOT_SUPPORTED ≠ STATUS_SUCCESS := by
  refine ⟨by decide, ⟨_, rfl, by decide, by decide⟩, by decide⟩

/-- C6, amended: `LDACIsDeviceSupported` returns `TRUE` for every device, and
in every state reached from the extension `EvtDeviceAdd` initialised by a
sequence of operations, `LDACNegotiateCodec` returns `STATUS_SUCCESS` when the
sequence holds a call of `EvtPrepareHardware` and `STATUS_NOT_SUPPORTED` when
it holds none. -/
theorem C6_negotiation_succeeds_after_prepare (K : DriverConstants) (fw : DeviceAddOutcome)
    (ext : LDAC_DEVICE_EXTENSION) (ops : List DriverOp) (α : Type) (caps : α) (len : Nat)
    (hadd : (EvtDeviceAdd fw).2 = some ext) :
    (∀ Device, LDACIsDeviceSupported Device = true) ∧
    (ops.any DriverOp.isPrepareHardware = true →
      (LDACNegotiateCodec (runOps K ext ops) caps len).1 = STATUS_SUCCESS) ∧
    (ops.any DriverOp.isPrepareHardware = false →
      (LDACNegotiateCodec (runOps K ext ops) caps len).1 = STATUS_NOT_SUPPORTED) := by
  have hinit : ext.IsLDACEnabled = false := (EvtDeviceAdd_extension fw ext hadd).1
  have hrun := runOps_IsLDACEnabled K ops ext
  rw [hinit, Bool.false_or] at hrun
  refine ⟨fun _ => rfl, ?_, ?_⟩
  · intro hprep
    unfold LDACNegotiateCodec
    rw [if_pos (by rw [hrun]; exact hprep)]
  · intro hprep
    unfold LDACNegotiateCodec
    rw [if_neg (by rw [hrun, hprep]; simp)]

/-- Instance of the amended C6: creation, a status query, then
`EvtPrepareHardware`; negotiation succeeds afterwards. -/
theorem C6_negotiation_succeeds_after_prepare_witness :
    (EvtDeviceAdd plainDeviceAdd).2 =
      some { Device := 1, CurrentBitrate := 990000, IsLDACEnabled := false,
             IsExclusiveMode := false, DefaultQueue := 2, ManualQueue := 3,
             QueueLock := 4, CodecTimer := 5 } ∧
    (LDACNegotiateCodec
      (runOps sampleConstants
        { Device := 1, CurrentBitrate := 990000, IsLDACEnabled := false,
          IsExclusiveMode := false, DefaultQueue := 2, ManualQueue := 3,
          QueueLock := 4, CodecTimer := 5 }
        [.IoDeviceControl sampleRequest 16 0 sampleConstants.IOCTL_LDAC_GET_STATUS,
         .PrepareHardware 0 0])
      [0x2D] 1).1 = STATUS_SUCCESS :=
  ⟨by decide,
    (C6_negotiation_succeeds_after_prepare sampleConstants plainDeviceAdd _
      [.IoDeviceControl sampleRequest 16 0 sampleConstants.IOCTL_LDAC_GET_STATUS,
       .PrepareHardware 0 0]
      (List Nat) [0x2D] 1 (by decide)).2.1 (by decide)⟩

/-- C7, refutation as stated: the remote advertises
{44100} x {stereo, mono} x {16} x {660000, 330000}; negotiation on an enabled
device succeeds and selects 990000, which the remote does not advertise, and
the following `IOCTL_LDAC_GET_STATUS` reports 990000 at 48000 Hz, although
the remote advertises 44100 Hz only; the result is not the expected
{44100, stereo, 16, 660000}. -/
theorem C7_counterexample :
    sampleExtension.IsLDACEnabled = true ∧
    (LDACNegotiateCodec sampleExtension scenarioRemote 4).1 = STATUS_SUCCESS ∧
    (LDACNegotiateCodec sampleExtension scenarioRemote 4).2.CurrentBitrate = 990000 ∧
    (LDACNegotiateCodec sampleExtension scenarioRemote 4).2.CurrentBitrate ∉
      scenarioRemote.bitrateTiers ∧
    (LDACNegotiateCodec sampleExtension scenarioRemote 4).2.CurrentBitrate ≠ 660000 ∧
    outputWrites (EvtIoDeviceControl sampleConstants
        (LDACNegotiateCodec sampleExtension scenarioRemote 4).2 sampleRequest 16 0
        sampleConstants.IOCTL_LDAC_GET_STATUS).Actions =
      [{ Type_ := 1, Bitrate := 990000, SamplingFreq := 48000, ChannelMode := 2,
         BitDepth := 16 }] ∧
    (48000 : Nat) ∉ scenarioRemote.samplingFreqs := by
  refine ⟨rfl, by decide, by decide, by decide, by decide, by decide, by decide⟩

/-- C7, amended: the capability blob has no influence on the operating point.
Whenever `LDACNegotiateCodec` succeeds, for any capability argument and
length, `CurrentBitrate` is 990000 and nothing else changed, and a following
`IOCTL_LDAC_GET_STATUS` (output buffer long enough and retrieved successfully)
reports bitrate 990000, sampling frequency 48000, channel mode 2 and bit depth
16. -/
theorem C7_operating_point_ignores_capabilities (K : DriverConstants)
    (ext : LDAC_DEVICE_EXTENSION) (α : Type) (caps : α) (len : Nat)
    (Request : WDFREQUEST) (OutputBufferLength InputBufferLength : Nat)
    (hok : (LDACNegotiateCodec ext caps len).1 = STATUS_SUCCESS)
    (hlen : K.sizeof_LDAC_CODEC_CONFIG ≤ OutputBufferLength)
    (hret : NT_SUCCESS Request.RetrieveOutputStatus = true) :
    (LDACNegotiateCodec ext caps len).2 = { ext with CurrentBitrate := 990000 } ∧
    outputWrites (EvtIoDeviceControl K (LDACNegotiateCodec ext caps len).2 Request
        OutputBufferLength InputBufferLength K.IOCTL_LDAC_GET_STATUS).Actions =
      [{ Type_ := K.CodecTypeLDAC, Bitrate := 990000,
         SamplingFreq := 48000, ChannelMode := 2, BitDepth := 16 }] := by
  have henabled : ext.IsLDACEnabled = true := by
    by_contra hne
    unfold LDACNegotiateCodec at hok
    rw [if_neg hne] at hok
    have hstatus : STATUS_NOT_SUPPORTED ≠ STATUS_SUCCESS := by decide
    exact hstatus hok
  have hneg : LDACNegotiateCodec ext caps len =
      (STATUS_SUCCESS, { ext with CurrentBitrate := 990000 }) := by
    unfold LDACNegotiateCodec
    rw [if_pos henabled]
    rfl
  rw [hneg, EvtIoDeviceControl_get_status K _ Request _ _ hlen hret]
  exact ⟨rfl, rfl⟩

/-- Instance of the amended C7: the scenario's remote set on the sample
extension. -/
theorem C7_operating_point_ignores_capabilities_witness :
    (LDACNegotiateCodec sampleExtension scenarioRemote 4).1 = STATUS_SUCCESS ∧
    outputWrites (EvtIoDeviceControl sampleConstants
        (LDACNegotiateCodec sampleExtension scenarioRemote 4).2 sampleRequest 16 0
        sampleConstants.IOCTL_LDAC_GET_STATUS).Actions =
      [{ Type_ := 1, Bitrate := 990000, SamplingFreq := 48000, ChannelMode := 2,
         BitDepth := 16 }] :=
  ⟨by decide,
    (C7_operating_point_ignores_capabilities sampleConstants sampleExtension CapabilitySet
      scenarioRemote 4 sampleRequest 16 0 (by decide) (by decide) (by decide)).2⟩

end LDACDriver
